import Mathlib

/-!
Verification of the data-plane and session core of the ple7 desktop VPN client.

The definitions below are a shallow embedding of the Rust sources:
  - desktop/src-tauri/src/wireguard.rs   (config parser, WgTunnel pumps)
  - desktop/src-tauri/src/tunnel.rs      (TunnelManager lifecycle, WsEvent callback)
  - desktop/src-tauri/src/websocket.rs   (WsEvent, WsClient read task)
  - desktop/src-tauri/helper/src/main.rs (privileged helper route operations)

Conventions: machine integers are modelled as Nat (with explicit bounds or
mod 2^32 where the Rust code depends on wrapping); byte buffers are List Nat;
fallible Rust functions returning Result<_, String> become Except String _.
Cryptographic operations (boringtun's Tunn) are external to the repository and
are modelled as outcome oracles passed to the pump functions; each pump step
is the body of the corresponding Rust loop for one received datagram.
-/

/-- An IPv4 address as four octets, mirroring Rust std::net::Ipv4Addr. -/
structure Ipv4 where
  a : Nat
  b : Nat
  c : Nat
  d : Nat
deriving DecidableEq

/-- The u32 value of an IPv4 address (big-endian octet order). -/
def Ipv4.toNat (ip : Ipv4) : Nat :=
  ip.a * 2 ^ 24 + ip.b * 2 ^ 16 + ip.c * 2 ^ 8 + ip.d

/-- Rust Ipv4Addr::from(u32), via to_be_bytes: splits a u32 into four octets. -/
def ipv4OfNat (n : Nat) : Ipv4 :=
  ⟨n / 2 ^ 24 % 256, n / 2 ^ 16 % 256, n / 2 ^ 8 % 256, n % 256⟩

/-- A socket address, mirroring std::net::SocketAddr for the IPv4 case used
throughout the data plane (all endpoints in this program are IPv4, spec section 6). -/
structure SockAddr where
  ip : Ipv4
  port : Nat
deriving DecidableEq

/-- Decimal digits to Nat, accumulator style (as Rust's integer parsing does). -/
def digitsToNat (cs : List Char) : Nat :=
  cs.foldl (fun acc ch => acc * 10 + (ch.toNat - '0'.toNat)) 0

/-- Split a character list at every occurrence of `sep`, keeping empty
segments, as Rust str::split on a one-character pattern does. The `acc`
parameter carries the current segment reversed. -/
def charSplitAux (sep : Char) : List Char → List Char → List (List Char)
  | [], acc => [acc.reverse]
  | c :: rest, acc =>
    if c = sep then acc.reverse :: charSplitAux sep rest []
    else charSplitAux sep rest (c :: acc)

/-- Rust str::split on a single-character separator. -/
def charSplit (sep : Char) (cs : List Char) : List (List Char) :=
  charSplitAux sep cs []

/-- Rust str::trim on a character list. Rust trims Unicode whitespace; the
configuration texts of interest only carry ASCII whitespace, which
Char.isWhitespace covers. -/
def charTrim (cs : List Char) : List Char :=
  ((cs.dropWhile Char.isWhitespace).reverse.dropWhile Char.isWhitespace).reverse

/-- Rust str::parse for an unsigned integer type with maximum value `bound`
(u8: 255, u16: 65535). Rust accepts an optional leading '+', then one or more
decimal digits (leading zeros allowed), and fails on overflow. The error
strings mirror core::num::ParseIntError's Display. -/
def parseRustUIntE (bound : Nat) (s : String) : Except String Nat :=
  if s.data = [] then .error "cannot parse integer from empty string"
  else
    let cs := match s.data with
      | '+' :: rest => rest
      | cs => cs
    if cs = [] then .error "invalid digit found in string"
    else if ¬ cs.all Char.isDigit then .error "invalid digit found in string"
    else if digitsToNat cs ≤ bound then .ok (digitsToNat cs)
    else .error "number too large to fit in target type"

/-- Rust str::parse::<uN>().ok(). -/
def parseRustUInt (bound : Nat) (s : String) : Option Nat :=
  (parseRustUIntE bound s).toOption

/-- One octet of an IPv4 literal, as parsed by Rust std: decimal digits only,
no sign, no leading zero (unless the octet is exactly "0"), value at most 255. -/
def parseOctet (s : String) : Option Nat :=
  let cs := s.data
  if cs = [] then none
  else if ¬ cs.all Char.isDigit then none
  else if cs.length > 1 ∧ cs.head? = some '0' then none
  else if digitsToNat cs ≤ 255 then some (digitsToNat cs)
  else none

/-- Rust Ipv4Addr::from_str: exactly four dot-separated octets. -/
def parseIpv4Addr (s : String) : Option Ipv4 :=
  match charSplit '.' s.data with
  | [x, y, z, w] => do
    let a ← parseOctet ⟨x⟩
    let b ← parseOctet ⟨y⟩
    let c ← parseOctet ⟨z⟩
    let d ← parseOctet ⟨w⟩
    pure ⟨a, b, c, d⟩
  | _ => none

/-- Port part of a socket-address literal: Rust std's parser reads decimal
digits (zero prefixes allowed for the port), bounded by u16. -/
def parsePortNum (s : String) : Option Nat :=
  let cs := s.data
  if cs = [] then none
  else if ¬ cs.all Char.isDigit then none
  else if digitsToNat cs ≤ 65535 then some (digitsToNat cs)
  else none

/-- Rust SocketAddr::from_str, restricted to the IPv4 form "a.b.c.d:port".
The Rust parser also accepts IPv6 socket literals; no configuration text in the
claims under study contains one, and the data plane is IPv4-only (spec section 6). -/
def parseSocketAddr (s : String) : Option SockAddr :=
  match charSplit ':' s.data with
  | [ipPart, portPart] => do
    let ip ← parseIpv4Addr ⟨ipPart⟩
    let port ← parsePortNum ⟨portPart⟩
    pure ⟨ip, port⟩
  | _ => none

/-- Six-bit value of one character of the standard base64 alphabet. -/
def b64Val (ch : Char) : Option Nat :=
  if 'A' ≤ ch ∧ ch ≤ 'Z' then some (ch.toNat - 'A'.toNat)
  else if 'a' ≤ ch ∧ ch ≤ 'z' then some (ch.toNat - 'a'.toNat + 26)
  else if '0' ≤ ch ∧ ch ≤ '9' then some (ch.toNat - '0'.toNat + 52)
  else if ch = '+' then some 62
  else if ch = '/' then some 63
  else none

/-- Decoder for base64::engine::general_purpose::STANDARD: the standard
alphabet, canonical '=' padding required, non-zero trailing bits rejected.
Error strings abbreviate the library's DecodeError Display; no claim depends
on their exact text, only on whether decoding succeeds. -/
def b64DecodeChunks : List Char → Except String (List Nat)
  | [] => .ok []
  | c1 :: c2 :: c3 :: c4 :: rest =>
    match b64Val c1, b64Val c2 with
    | some v1, some v2 =>
      if c3 = '=' then
        if c4 = '=' ∧ rest = [] then
          if v2 % 16 = 0 then .ok [v1 * 4 + v2 / 16]
          else .error "Invalid last symbol"
        else .error "Invalid padding"
      else
        match b64Val c3 with
        | some v3 =>
          if c4 = '=' then
            if rest = [] then
              if v3 % 4 = 0 then .ok [v1 * 4 + v2 / 16, v2 % 16 * 16 + v3 / 4]
              else .error "Invalid last symbol"
            else .error "Invalid padding"
          else
            match b64Val c4 with
            | some v4 =>
              match b64DecodeChunks rest with
              | .ok tail =>
                .ok ([v1 * 4 + v2 / 16, v2 % 16 * 16 + v3 / 4, v3 % 4 * 64 + v4] ++ tail)
              | .error e => .error e
            | none => .error "Invalid symbol"
        | none => .error "Invalid symbol"
    | _, _ => .error "Invalid symbol"
  | _ => .error "Invalid input length"

/-- base64 STANDARD decode of a string. -/
def base64Decode (s : String) : Except String (List Nat) :=
  b64DecodeChunks s.data

/-- prefix_to_netmask from wireguard.rs: 0 maps to 0, anything at least 32 maps
to the all-ones mask, otherwise the mask is the u32 shift !0u32 << (32 - p). -/
def prefix_to_netmask (p : Nat) : Ipv4 :=
  let mask : Nat :=
    if p = 0 then 0
    else if 32 ≤ p then 2 ^ 32 - 1
    else (2 ^ 32 - 1) * 2 ^ (32 - p) % 2 ^ 32
  ipv4OfNat mask

/-- Rust str::lines: split on '\n', strip one trailing '\r' per line, and do
not yield a final empty line when the text ends with '\n'. -/
def rustLines (s : String) : List (List Char) :=
  if s.data = [] then []
  else
    let parts := charSplit '\n' s.data
    let parts := if parts.getLast? = some [] then parts.dropLast else parts
    parts.map (fun l => if l.getLast? = some '\r' then l.dropLast else l)

/-- Helper for str::split_once on a list of characters. -/
def splitOnceList : List Char → Char → Option (List Char × List Char)
  | [], _ => none
  | c :: rest, ch =>
    if c = ch then some ([], rest)
    else
      match splitOnceList rest ch with
      | some (l, r) => some (c :: l, r)
      | none => none

/-- Peer configuration (struct WgPeer in wireguard.rs). Keys are 32 raw bytes. -/
structure WgPeer where
  public_key : List Nat
  endpoint : Option SockAddr
  allowed_ips : List (Ipv4 × Nat)
  persistent_keepalive : Option Nat
  preshared_key : Option (List Nat)
deriving DecidableEq

/-- Tunnel configuration (struct WgConfig in wireguard.rs). -/
structure WgConfig where
  private_key : List Nat
  address : Ipv4
  netmask : Ipv4
  dns : Option Ipv4
  peers : List WgPeer
  listen_port : Option Nat
deriving DecidableEq

/-- The AllowedIPs branch of parse_wg_config: the value is split on ',';
tokens containing ':' (IPv6) are skipped; a token with '/' keeps the parsed
address with parts[1].parse::<u8>().unwrap_or(32) as prefix (so an unparsable
prefix falls back to 32 and the token is kept); a bare token is kept as /32
when it parses; unparsable addresses are skipped. -/
def parseAllowedIPs (value : String) : List (Ipv4 × Nat) :=
  (charSplit ',' value.data).foldl
    (fun acc token =>
      let t := charTrim token
      if t.any (· = ':') then acc
      else if t.any (· = '/') then
        let parts := charSplit '/' t
        match parseIpv4Addr ⟨parts.headD []⟩ with
        | none => acc
        | some addr => acc ++ [(addr, (parseRustUInt 255 ⟨parts.getD 1 []⟩).getD 32)]
      else
        match parseIpv4Addr ⟨t⟩ with
        | some addr => acc ++ [(addr, 32)]
        | none => acc)
    []

/-- The fresh peer pushed when a "[Peer]" section marker is met. -/
def emptyPeer : WgPeer :=
  { public_key := List.replicate 32 0
    endpoint := none
    allowed_ips := []
    persistent_keepalive := none
    preshared_key := none }

/-- Mutable locals of parse_wg_config while scanning lines. -/
structure ParseState where
  private_key : Option (List Nat)
  address : Option Ipv4
  netmask : Ipv4
  dns : Option Ipv4
  listen_port : Option Nat
  peers : List WgPeer
  current_peer : Option WgPeer
deriving DecidableEq

/-- Initial parser state: netmask defaults to 255.255.255.0 (/24). -/
def initialParseState : ParseState :=
  { private_key := none
    address := none
    netmask := ⟨255, 255, 255, 0⟩
    dns := none
    listen_port := none
    peers := []
    current_peer := none }

/-- One iteration of the line loop of parse_wg_config (wireguard.rs 492-610). -/
def parseLine (st : ParseState) (rawLine : List Char) : Except String ParseState :=
  let line := charTrim rawLine
  if line = [] ∨ line.head? = some '#' then .ok st
  else if line = "[Interface]".data then .ok st
  else if line = "[Peer]".data then
    let peers := match st.current_peer with
      | some p => st.peers ++ [p]
      | none => st.peers
    .ok { st with peers := peers, current_peer := some emptyPeer }
  else
    match splitOnceList line '=' with
    | none => .ok st
    | some (k0, v0) =>
      let key := charTrim k0
      let value : String := ⟨charTrim v0⟩
      if key = "PrivateKey".data then
        match base64Decode value with
        | .error e => .error ("Invalid private key: " ++ e)
        | .ok bytes =>
          if bytes.length = 32 then .ok { st with private_key := some bytes }
          else .error "Private key must be 32 bytes"
      else if key = "Address".data then
        let addrAndPfx : String × Option Nat :=
          if value.data.any (· = '/') then
            let parts := charSplit '/' value.data
            (⟨parts.headD []⟩, parseRustUInt 255 ⟨parts.getD 1 []⟩)
          else (value, none)
        match parseIpv4Addr addrAndPfx.1 with
        | none => .error "Invalid address: invalid IPv4 address syntax"
        | some a =>
          match addrAndPfx.2 with
          | some p => .ok { st with address := some a, netmask := prefix_to_netmask p }
          | none => .ok { st with address := some a }
      else if key = "DNS".data then
        match parseIpv4Addr value with
        | none => .error "Invalid DNS: invalid IPv4 address syntax"
        | some a => .ok { st with dns := some a }
      else if key = "ListenPort".data then
        match parseRustUIntE 65535 value with
        | .error e => .error ("Invalid listen port: " ++ e)
        | .ok p => .ok { st with listen_port := some p }
      else if key = "PublicKey".data then
        match st.current_peer with
        | none => .ok st
        | some peer =>
          match base64Decode value with
          | .error e => .error ("Invalid public key: " ++ e)
          | .ok bytes =>
            if bytes.length = 32 then
              .ok { st with current_peer := some { peer with public_key := bytes } }
            else .error "Public key must be 32 bytes"
      else if key = "Endpoint".data then
        match st.current_peer with
        | none => .ok st
        | some peer =>
          match parseSocketAddr value with
          | none => .error "Invalid endpoint: invalid socket address syntax"
          | some addr => .ok { st with current_peer := some { peer with endpoint := some addr } }
      else if key = "AllowedIPs".data then
        match st.current_peer with
        | none => .ok st
        | some peer =>
          let peer := { peer with allowed_ips := peer.allowed_ips ++ parseAllowedIPs value }
          .ok { st with current_peer := some peer }
      else if key = "PersistentKeepalive".data then
        match st.current_peer with
        | none => .ok st
        | some peer =>
          match parseRustUIntE 65535 value with
          | .error e => .error ("Invalid keepalive: " ++ e)
          | .ok p =>
            .ok { st with current_peer := some { peer with persistent_keepalive := some p } }
      else if key = "PresharedKey".data then
        match st.current_peer with
        | none => .ok st
        | some peer =>
          match base64Decode value with
          | .error e => .error ("Invalid preshared key: " ++ e)
          | .ok bytes =>
            if bytes.length = 32 then
              .ok { st with current_peer := some { peer with preshared_key := some bytes } }
            else .error "Preshared key must be 32 bytes"
      else .ok st

/-- parse_wg_config from wireguard.rs: scan all lines, push a pending peer,
then fail with "Missing PrivateKey" / "Missing Address" when either is absent. -/
def parse_wg_config (config_str : String) : Except String WgConfig := do
  let st ← (rustLines config_str).foldlM parseLine initialParseState
  let peers := match st.current_peer with
    | some p => st.peers ++ [p]
    | none => st.peers
  match st.private_key with
  | none => .error "Missing PrivateKey"
  | some pk =>
    match st.address with
    | none => .error "Missing Address"
    | some addr =>
      .ok { private_key := pk
            address := addr
            netmask := st.netmask
            dns := st.dns
            peers := peers
            listen_port := st.listen_port }

/-- The boringtun TunnResult variants that udp_read_loop's match handles.
The decapsulate call itself is the external crypto library; a pump step takes
it as an oracle giving each peer's outcome for the received datagram. -/
inductive DecapOutcome where
  | writeToTunnelV4 (data : List Nat)
  | writeToTunnelV6 (data : List Nat)
  | writeToNetwork (data : List Nat)
  | done
  | err
deriving DecidableEq

/-- Mutable per-peer state (struct PeerState in wireguard.rs), minus the Tunn
crypto object, which lives in the decap/encap oracles. The endpoint type is a
parameter so pump lemmas do not depend on address representation. -/
structure PeerState (α : Type) where
  endpoint : Option α
  last_handshake : Option Nat
  tx_bytes : Nat
  rx_bytes : Nat
deriving DecidableEq

/-- Observable effect of one udp_read_loop iteration (wireguard.rs 281-328):
the updated peer map, the packet scheduled for the TUN write performed after
the lock is dropped, the handshake responses sent to the source inside the
loop, and (instrumentation) the keys decapsulate was attempted on, in order. -/
structure UdpStep (κ α : Type) where
  peers : List (κ × PeerState α)
  write_data : Option (List Nat)
  net_out : List (List Nat × α)
  attempted : List κ
deriving DecidableEq

/-- The peer-iteration body of udp_read_loop for one datagram `buf` received
from `src`. The HashMap iteration is modelled as an association list in
iteration order. WriteToTunnelV4/V6 update rx_bytes and endpoint, record the
data and break; WriteToNetwork sends the reply to src and continues with the
next peer; Done records last_handshake = now and continues; Err continues. -/
def udp_read_step (decap : κ → List Nat → DecapOutcome) (buf : List Nat) (src : α)
    (now : Nat) : List (κ × PeerState α) → UdpStep κ α
  | [] => ⟨[], none, [], []⟩
  | (k, p) :: rest =>
    match decap k buf with
    | .writeToTunnelV4 data =>
      ⟨(k, { p with rx_bytes := p.rx_bytes + data.length, endpoint := some src }) :: rest,
        some data, [], [k]⟩
    | .writeToTunnelV6 data =>
      ⟨(k, { p with rx_bytes := p.rx_bytes + data.length, endpoint := some src }) :: rest,
        some data, [], [k]⟩
    | .writeToNetwork data =>
      let r := udp_read_step decap buf src now rest
      ⟨(k, p) :: r.peers, r.write_data, (data, src) :: r.net_out, k :: r.attempted⟩
    | .done =>
      let r := udp_read_step decap buf src now rest
      ⟨(k, { p with last_handshake := some now }) :: r.peers, r.write_data, r.net_out,
        k :: r.attempted⟩
    | .err =>
      let r := udp_read_step decap buf src now rest
      ⟨(k, p) :: r.peers, r.write_data, r.net_out, k :: r.attempted⟩

/-- The TunnResult variants that tun_read_loop's match distinguishes for
encapsulate: a transport ciphertext to send, an error, or anything else. -/
inductive EncapOutcome where
  | writeToNetwork (data : List Nat)
  | err
  | other
deriving DecidableEq

/-- Observable effect of one tun_read_loop iteration: updated peers and the
ciphertexts sent on the UDP socket with their destination address. -/
structure TunStep (κ α : Type) where
  peers : List (κ × PeerState α)
  sent : List (List Nat × α)
deriving DecidableEq

/-- IPv4 destination read from bytes 16..19 of the packet (tun_read_loop).
The loop computes it but peer selection does not use it (the source's
"Simplified - send to first peer with endpoint" comment). -/
def ipv4_dst (data : List Nat) : Ipv4 :=
  ⟨data.getD 16 0, data.getD 17 0, data.getD 18 0, data.getD 19 0⟩

/-- The peer-iteration body of tun_read_loop for one packet read from the TUN
device: the first peer with a known endpoint is selected (matches = endpoint
is_some) and the loop breaks after it whether or not encapsulation produced a
ciphertext; on WriteToNetwork the ciphertext length is added to tx_bytes and
the ciphertext is sent to the peer's current endpoint. -/
def tun_read_step (encap : κ → List Nat → EncapOutcome) (packet : List Nat) :
    List (κ × PeerState α) → TunStep κ α
  | [] => ⟨[], []⟩
  | (k, p) :: rest =>
    match p.endpoint with
    | some ep =>
      match encap k packet with
      | .writeToNetwork data =>
        ⟨(k, { p with tx_bytes := p.tx_bytes + data.length }) :: rest, [(data, ep)]⟩
      | _ => ⟨(k, p) :: rest, []⟩
    | none =>
      let r := tun_read_step encap packet rest
      ⟨(k, p) :: r.peers, r.sent⟩

/-- One tun_read_loop iteration including the header-length guard: packets
shorter than 20 bytes are dropped before the destination is read. -/
def tun_read_body (encap : κ → List Nat → EncapOutcome) (packet : List Nat)
    (peers : List (κ × PeerState α)) : TunStep κ α :=
  if packet.length < 20 then ⟨peers, []⟩
  else
    let _dst := ipv4_dst packet
    tun_read_step encap packet peers

/-- WgTunnel::update_peer_endpoint (wireguard.rs 457-463): set the endpoint of
the peer stored under the given key, if present. -/
def update_peer_endpoint [DecidableEq κ] (peers : List (κ × PeerState α)) (key : κ)
    (ep : α) : List (κ × PeerState α) :=
  peers.map (fun q => if q.1 = key then (q.1, { q.2 with endpoint := some ep }) else q)

/-- Control-plane events (enum WsEvent in websocket.rs). -/
inductive WsEvent where
  | peerEndpointUpdate (device_id public_key endpoint : String)
  | peerOnline (device_id public_key : String)
  | peerOffline (device_id : String)
  | networkConfigUpdate (network_id : String)
  | ping
  | endpointAck (success : Bool)
deriving DecidableEq

/-- The event callback that TunnelManager::connect installs on the managed
WebSocket client (tunnel.rs 157-169). Every arm of its match only writes a log
line; none of them touches the tunnel, so its effect on the session's peer map
is the identity in every case. -/
def connect_ws_callback_effect (event : WsEvent) (peers : List (κ × PeerState α)) :
    List (κ × PeerState α) :=
  match event with
  | .peerEndpointUpdate _ _ _ => peers
  | .peerOnline _ _ => peers
  | .peerOffline _ => peers
  | _ => peers

/-- The WsClient read task's special-event handling (websocket.rs 171-183):
a PeerEndpointUpdate whose endpoint string parses is inserted into the
WsClient-local peer_endpoints map. This map is only readable through
get_peer_endpoint / peer_endpoints, which no tunnel code calls. -/
def ws_client_read_effect (event : WsEvent) (m : List (String × SockAddr)) :
    List (String × SockAddr) :=
  match event with
  | .peerEndpointUpdate _ pk ep =>
    match parseSocketAddr ep with
    | some addr =>
      if m.any (fun q => q.1 = pk) then
        m.map (fun q => if q.1 = pk then (pk, addr) else q)
      else m ++ [(pk, addr)]
    | none => m
  | _ => m

/-- Connection status of the orchestrator (enum ConnectionStatus in tunnel.rs). -/
inductive ConnectionStatus where
  | disconnected
  | connecting
  | discoveringEndpoint
  | handshaking
  | connected
  | disconnecting
  | error (msg : String)
deriving DecidableEq

/-- Aggregate statistics (struct ConnectionStats in tunnel.rs). -/
structure ConnectionStats where
  tx_bytes : Nat
  rx_bytes : Nat
  connected_peers : Nat
  public_endpoint : Option String
  connection_type : String
deriving DecidableEq

/-- The stats value TunnelManager::new starts from and disconnect resets to. -/
def initialStats : ConnectionStats :=
  { tx_bytes := 0
    rx_bytes := 0
    connected_peers := 0
    public_endpoint := none
    connection_type := "unknown" }

/-- Observable state of a TunnelManager: status and stats behind their locks,
whether the wg_tunnel / ws_client options are populated, the running flag, and
the stored session identifiers. -/
structure ManagerState where
  status : ConnectionStatus
  stats : ConnectionStats
  hasTunnel : Bool
  hasWsClient : Bool
  isRunning : Bool
  currentDeviceId : Option String
  currentNetworkId : Option String
deriving DecidableEq

namespace TunnelManager

/-- TunnelManager::new. -/
def new : ManagerState :=
  { status := .disconnected
    stats := initialStats
    hasTunnel := false
    hasWsClient := false
    isRunning := false
    currentDeviceId := none
    currentNetworkId := none }

/-- Results of the external collaborators TunnelManager::connect drives, so
that connect itself is a pure function of them: the STUN probe (Ok carries the
public address rendered to a string), the managed WebSocket start, the
WgTunnel::new constructor (Ok carries the tunnel's own STUN result, read back
through tunnel.public_endpoint()), and WgTunnel::start. The exit-gateway call's
result is not needed: connect ignores its error. -/
structure ConnectEnv where
  stun : Option String
  wsStartOk : Bool
  tunnelNew : Except String (Option String)
  tunnelStart : Except String Unit

/-- TunnelManager::connect (tunnel.rs 78-233) as a function of the manager
state, the configuration text, and the environment. Mirrors the control flow:
the running guard; status := Connecting; parse (early return on error, status
left as Connecting); store session ids; status := DiscoveringEndpoint and the
STUN attempt; the optional WebSocket start; status := Handshaking; WgTunnel
creation and start (early returns leave status = Handshaking); exit-gateway
errors ignored; then running := true, connection_type from the STUN outcome,
and status := Connected. -/
def connect (s : ManagerState) (config_str : String) (device_id network_id : String)
    (_use_exit_node : Bool) (env : ConnectEnv) : Except String Unit × ManagerState :=
  if s.isRunning then (.error "Already connected", s)
  else
    let s := { s with status := .connecting }
    match parse_wg_config config_str with
    | .error e => (.error e, s)
    | .ok _cfg =>
      let s := { s with currentDeviceId := some device_id,
                        currentNetworkId := some network_id }
      let s := { s with status := .discoveringEndpoint }
      let s := match env.stun with
        | some addr => { s with stats := { s.stats with public_endpoint := some addr } }
        | none => s
      let s := if env.wsStartOk then { s with hasWsClient := true } else s
      let s := { s with status := .handshaking }
      match env.tunnelNew with
      | .error e => (.error e, s)
      | .ok tunnelEndpoint =>
        let s := match tunnelEndpoint with
          | some ep => { s with stats := { s.stats with public_endpoint := some ep } }
          | none => s
        match env.tunnelStart with
        | .error e => (.error e, s)
        | .ok _ =>
          let s := { s with hasTunnel := true, isRunning := true }
          let ctype := if env.stun.isSome then "direct" else "relay"
          let s := { s with stats := { s.stats with connection_type := ctype } }
          (.ok (), { s with status := .connected })

/-- TunnelManager::disconnect (tunnel.rs 259-297): refuse with "Not connected"
when the running flag is down; otherwise set Disconnecting, stop and drop the
tunnel (WgTunnel::stop only clears the running flag and returns Ok), stop and
drop the WebSocket client, clear session ids, drop the running flag, set
Disconnected, and reset the stats to their initial value. -/
def disconnect (s : ManagerState) : Except String Unit × ManagerState :=
  if s.isRunning then
    (.ok (),
      { status := .disconnected
        stats := initialStats
        hasTunnel := false
        hasWsClient := false
        isRunning := false
        currentDeviceId := none
        currentNetworkId := none })
  else (.error "Not connected", s)

end TunnelManager

/-- Route-table operations issued by the privileged helper (macOS), in terms
of the route(8) invocations of helper/src/main.rs. -/
inductive RouteCmd where
  | addHost (ip gw : String)
  | addNet (net gw : String)
  | delNet (net : String)
  | delHost (ip : String)
deriving DecidableEq

/-- The helper state fields involved in gateway handling. -/
structure HelperGwState where
  originalGateway : Option String
  excludedIp : Option String
deriving DecidableEq

/-- set_default_gateway from helper/src/main.rs (627-709): look up the current
default gateway (modelled by the `origGwLookup` parameter, the result of
parsing `route -n get default`); when an exclude IP is given and a gateway was
found, first add the host bypass route via the original gateway and record the
excluded IP; then add the 0.0.0.0/1 and 128.0.0.0/1 split routes via the
tunnel gateway. Returns the new state and the route commands in issue order.
Process-spawn failures of route(8) are outside the model; the commands' exit
codes affect only the response message, not which routes are attempted. -/
def set_default_gateway (st : HelperGwState) (gateway : String)
    (exclude_ip : Option String) (origGwLookup : Option String) :
    HelperGwState × List RouteCmd :=
  let st := match origGwLookup with
    | some gw => { st with originalGateway := some gw }
    | none => st
  let bypass : List RouteCmd × HelperGwState :=
    match exclude_ip, origGwLookup with
    | some ip, some origGw => ([.addHost ip origGw], { st with excludedIp := some ip })
    | _, _ => ([], st)
  (bypass.2, bypass.1 ++ [.addNet "0.0.0.0/1" gateway, .addNet "128.0.0.0/1" gateway])

/-- restore_default_gateway from helper/src/main.rs (711-747): delete the
0.0.0.0/1 split route, then the 128.0.0.0/1 split route, then the recorded
bypass host route (if any), and clear the recorded excluded IP. -/
def restore_default_gateway (st : HelperGwState) : HelperGwState × List RouteCmd :=
  let cmds := [RouteCmd.delNet "0.0.0.0/1", RouteCmd.delNet "128.0.0.0/1"] ++
    (match st.excludedIp with
     | some ip => [RouteCmd.delHost ip]
     | none => [])
  ({ st with excludedIp := none }, cmds)

/-- The removal command corresponding to an installation command, for stating
order-reversal properties about the route sequences. -/
def routeRemovalOf : RouteCmd → RouteCmd
  | .addHost ip _ => .delHost ip
  | .addNet net _ => .delNet net
  | c => c

/-- Whether a decapsulation outcome is an inner datagram (the two outcomes on
which udp_read_loop breaks out of the peer iteration). -/
def isInner : DecapOutcome → Bool
  | .writeToTunnelV4 _ => true
  | .writeToTunnelV6 _ => true
  | _ => false

/-- Effect of one non-breaking udp_read_loop iteration on a peer entry:
Done records the handshake instant, everything else leaves the entry alone. -/
def nonInnerUpdate (decap : κ → List Nat → DecapOutcome) (buf : List Nat) (now : Nat)
    (q : κ × PeerState α) : κ × PeerState α :=
  match decap q.1 buf with
  | .done => (q.1, { q.2 with last_handshake := some now })
  | _ => q

/-- Handshake replies sent back to the source while iterating over `pre`. -/
def replyOut (decap : κ → List Nat → DecapOutcome) (buf : List Nat) (src : α)
    (pre : List (κ × PeerState α)) : List (List Nat × α) :=
  pre.filterMap (fun q =>
    match decap q.1 buf with
    | .writeToNetwork d => some (d, src)
    | _ => none)

/-- The base64 encoding of 32 zero bytes, used as a syntactically valid key. -/
def allZeroKeyB64 : String := "AAAAAAAAAAAAAAAAAAAAAAAAAAAAAAAAAAAAAAAAAAA="

/-- Scenario 6 of the spec: an [Interface] section with an Address but no
PrivateKey. -/
def cfgMissingKey : String := "[Interface]\nAddress = 10.0.0.1/24"

/-- A configuration with a valid PrivateKey but no Address line. -/
def cfgMissingAddress : String := "[Interface]\nPrivateKey = " ++ allZeroKeyB64 ++ "\n"

/-- A configuration whose Address line carries the out-of-range prefix /33. -/
def cfgPrefix33 : String :=
  "[Interface]\nPrivateKey = " ++ allZeroKeyB64 ++ "\nAddress = 10.0.0.1/33"

/-- A concrete environment for exercising TunnelManager.connect. -/
def env0 : TunnelManager.ConnectEnv :=
  { stun := none, wsStartOk := false, tunnelNew := .ok none, tunnelStart := .ok () }

namespace TunnelManager

/-- TunnelManager::update_peer_endpoint (tunnel.rs 310-323): requires a live
tunnel, decodes the base64 public key to 32 raw bytes, then delegates to
WgTunnel::update_peer_endpoint on the peer map. -/
def manager_update_peer_endpoint (hasTunnel : Bool)
    (peers : List (List Nat × PeerState SockAddr)) (public_key : String)
    (ep : SockAddr) : Except String (List (List Nat × PeerState SockAddr)) :=
  if hasTunnel then
    match base64Decode public_key with
    | .error e => .error ("Invalid public key: " ++ e)
    | .ok bytes =>
      if bytes.length = 32 then .ok (update_peer_endpoint peers bytes ep)
      else .error "Public key must be 32 bytes"
  else .error "Not connected"

end TunnelManager

/-- A manager state as left by a successful connect: running with a live
tunnel. -/
def runningState : ManagerState :=
  { status := .connected
    stats := { tx_bytes := 5, rx_bytes := 7, connected_peers := 1,
               public_endpoint := some "198.51.100.7:51820", connection_type := "direct" }
    hasTunnel := true
    hasWsClient := true
    isRunning := true
    currentDeviceId := some "device-a"
    currentNetworkId := some "net-1"
  }

/-- A peer-state value over Nat endpoints for concrete pump scenarios. -/
def examplePeer (ep : Option Nat) : PeerState Nat :=
  { endpoint := ep, last_handshake := none, tx_bytes := 0, rx_bytes := 0 }

/-- Oracle in which peer 1 answers the datagram with a handshake reply and
every other peer fails to decapsulate it. -/
def decapReplyThenErr : Nat → List Nat → DecapOutcome := fun k _ =>
  if k = 1 then .writeToNetwork [9] else .err

/-- Oracle in which decapsulation yields an inner IPv6 datagram. -/
def decapV6 : Nat → List Nat → DecapOutcome := fun _ _ => .writeToTunnelV6 [1, 2, 3]

/-- Oracle in which encapsulation of any inner packet yields a 60-byte
transport ciphertext (e.g. a 28-byte inner plus WireGuard header and tag). -/
def encapCipher60 : Nat → List Nat → EncapOutcome := fun _ _ =>
  .writeToNetwork (List.replicate 60 1)

/-- The 32-byte all-zero peer key, whose base64 rendering is allZeroKeyB64. -/
def key32 : List Nat := List.replicate 32 0

/-- A live session's peer map for the control-plane scenario: one configured
peer behind the relay endpoint 10.0.0.1:1000. -/
def peersC3 : List (List Nat × PeerState SockAddr) :=
  [(key32, { endpoint := some ⟨⟨10, 0, 0, 1⟩, 1000⟩, last_handshake := none,
             tx_bytes := 0, rx_bytes := 0 })]

/-- The endpoint carried by the control-plane update of spec scenario 4. -/
def newEndpointC3 : SockAddr := ⟨⟨203, 0, 113, 9⟩, 41820⟩

/-- Per-token semantics of the AllowedIPs parser, written from the amended
claim's wording, to be proved equal to the source's fold. -/
def allowedIpToken (token : List Char) : Option (Ipv4 × Nat) :=
  let t := charTrim token
  if t.any (· = ':') then none
  else if t.any (· = '/') then
    match parseIpv4Addr ⟨(charSplit '/' t).headD []⟩ with
    | none => none
    | some addr =>
      some (addr, (parseRustUInt 255 ⟨(charSplit '/' t).getD 1 []⟩).getD 32)
  else
    match parseIpv4Addr ⟨t⟩ with
    | some addr => some (addr, 32)
    | none => none

/-- Shape of one udp_read_loop iteration when the first inner datagram appears
at peer k: every peer before k is attempted and left alone (except Done's
handshake stamp), k gets the rx/endpoint update and its data is scheduled for
the TUN write, and no peer after k is attempted. -/
theorem udp_read_step_spec {κ α : Type} (decap : κ → List Nat → DecapOutcome)
    (buf : List Nat) (src : α) (now : Nat) (k : κ) (p : PeerState α)
    (post : List (κ × PeerState α)) (data : List Nat)
    (hk : decap k buf = .writeToTunnelV4 data ∨ decap k buf = .writeToTunnelV6 data) :
    ∀ pre : List (κ × PeerState α), (∀ q ∈ pre, isInner (decap q.1 buf) = false) →
      udp_read_step decap buf src now (pre ++ (k, p) :: post) =
        ⟨pre.map (nonInnerUpdate decap buf now) ++
           (k, { p with rx_bytes := p.rx_bytes + data.length, endpoint := some src }) :: post,
         some data, replyOut decap buf src pre, pre.map Prod.fst ++ [k]⟩ := by
  intro pre
  induction pre with
  | nil =>
    intro _
    rcases hk with h | h <;> simp [udp_read_step, h, replyOut]
  | cons q rest ih =>
    intro hpre
    obtain ⟨k0, p0⟩ := q
    have h0 : isInner (decap k0 buf) = false := hpre (k0, p0) (List.mem_cons_self _ _)
    have ih' := ih (fun q hq => hpre q (List.mem_cons_of_mem _ hq))
    cases hc : decap k0 buf with
    | writeToTunnelV4 d => rw [hc] at h0; simp [isInner] at h0
    | writeToTunnelV6 d => rw [hc] at h0; simp [isInner] at h0
    | writeToNetwork d => simp [udp_read_step, hc, ih', nonInnerUpdate, replyOut]
    | done => simp [udp_read_step, hc, ih', nonInnerUpdate, replyOut]
    | err => simp [udp_read_step, hc, ih', nonInnerUpdate, replyOut]

/-- Shape of one tun_read_loop iteration when the first peer with a known
endpoint is k: earlier peers (all without endpoints) are skipped, the loop
breaks at k, and on a WriteToNetwork outcome the ciphertext goes to k's
current endpoint with its length added to k's tx counter. -/
theorem tun_read_step_spec {κ α : Type} (encap : κ → List Nat → EncapOutcome)
    (packet : List Nat) (k : κ) (p : PeerState α) (post : List (κ × PeerState α))
    (ep : α) (hep : p.endpoint = some ep) :
    ∀ pre : List (κ × PeerState α), (∀ q ∈ pre, q.2.endpoint = none) →
      tun_read_step encap packet (pre ++ (k, p) :: post) =
        match encap k packet with
        | .writeToNetwork data =>
          ⟨pre ++ (k, { p with tx_bytes := p.tx_bytes + data.length }) :: post, [(data, ep)]⟩
        | _ => ⟨pre ++ (k, p) :: post, []⟩ := by
  intro pre
  induction pre with
  | nil =>
    intro _
    cases hc : encap k packet <;> simp [tun_read_step, hep, hc]
  | cons q rest ih =>
    intro hpre
    obtain ⟨k0, p0⟩ := q
    have h0 : p0.endpoint = none := hpre (k0, p0) (List.mem_cons_self _ _)
    have ih' := ih (fun q hq => hpre q (List.mem_cons_of_mem _ hq))
    cases hc : encap k packet <;> simp [tun_read_step, h0, ih', hc]

/-- C10: prefix_to_netmask is total for every u8 input and never panics:
prefix 0 gives 0.0.0.0, every prefix of 32 or more gives 255.255.255.255, and
each prefix 1..=31 gives the mask with exactly that many leading one bits; in
particular an Address line with the out-of-range prefix /33 parses to the /32
netmask instead of a shift-overflow panic. -/
theorem C10_prefix_to_netmask_total :
    prefix_to_netmask 0 = ⟨0, 0, 0, 0⟩ ∧
    (∀ p : Nat, 32 ≤ p → p ≤ 255 → prefix_to_netmask p = ⟨255, 255, 255, 255⟩) ∧
    (∀ p : Nat, 1 ≤ p → p ≤ 31 →
      (prefix_to_netmask p).toNat = (2 ^ p - 1) * 2 ^ (32 - p)) ∧
    parse_wg_config cfgPrefix33 = .ok
      { private_key := key32, address := ⟨10, 0, 0, 1⟩, netmask := ⟨255, 255, 255, 255⟩,
        dns := none, peers := [], listen_port := none } := by
  refine ⟨rfl, ?_, ?_, rfl⟩
  · intro p h32 _h255
    have hne : ¬ p = 0 := by omega
    simp only [prefix_to_netmask, hne, if_false, h32, if_true]
    rfl
  · intro p h1 h31
    interval_cases p <;> rfl

/-- C10 witness: the general theorem instantiated at the prefixes 33 and 24. -/
theorem C10_witness :
    prefix_to_netmask 33 = ⟨255, 255, 255, 255⟩ ∧
    (prefix_to_netmask 24).toNat = (2 ^ 24 - 1) * 2 ^ 8 :=
  ⟨C10_prefix_to_netmask_total.2.1 33 (by decide) (by decide),
   C10_prefix_to_netmask_total.2.2.1 24 (by decide) (by decide)⟩

/-- C1 counterexample: disconnect does not always succeed. On a manager with
no tunnel running it returns the error "Not connected" (leaving the state
unchanged), and a second disconnect right after a successful one returns that
error where the first returned success, so the two calls do not behave the
same. -/
theorem C1_counterexample :
    TunnelManager.disconnect TunnelManager.new =
      (Except.error "Not connected", TunnelManager.new) ∧
    (TunnelManager.disconnect runningState).1 = Except.ok () ∧
    (TunnelManager.disconnect (TunnelManager.disconnect runningState).2).1 =
      Except.error "Not connected" :=
  ⟨rfl, rfl, rfl⟩

/-- C1 amended: on a running manager, disconnect succeeds and leaves status
Disconnected with statistics reset; a second disconnect immediately after
returns Err "Not connected" but leaves the final state exactly as the first
call left it (teardown is idempotent in state, not in result). -/
theorem C1_amended_teardown (s : ManagerState) (h : s.isRunning = true) :
    (TunnelManager.disconnect s).1 = Except.ok () ∧
    (TunnelManager.disconnect s).2.status = ConnectionStatus.disconnected ∧
    (TunnelManager.disconnect s).2.stats = initialStats ∧
    (TunnelManager.disconnect s).2.isRunning = false ∧
    (TunnelManager.disconnect (TunnelManager.disconnect s).2).1 =
      Except.error "Not connected" ∧
    (TunnelManager.disconnect (TunnelManager.disconnect s).2).2 =
      (TunnelManager.disconnect s).2 := by
  simp [TunnelManager.disconnect, h]

/-- C1 witness: the amended theorem applied to a concrete running manager. -/
theorem C1_witness :
    runningState.isRunning = true ∧
    (TunnelManager.disconnect runningState).1 = Except.ok () :=
  ⟨rfl, (C1_amended_teardown runningState rfl).1⟩

/-- C2 counterexample: connecting with scenario 6's configuration (an
Interface section with an Address but no PrivateKey) fails with the error
naming PrivateKey, but the orchestrator's status is left at Connecting — it
does not return to Disconnected as the claim states. -/
theorem C2_counterexample :
    (TunnelManager.connect TunnelManager.new cfgMissingKey "device-a" "net-1" false env0).1 =
      Except.error "Missing PrivateKey" ∧
    (TunnelManager.connect TunnelManager.new cfgMissingKey "device-a" "net-1" false env0).2.status =
      ConnectionStatus.connecting ∧
    (TunnelManager.connect TunnelManager.new cfgMissingKey "device-a" "net-1" false env0).2.status ≠
      ConnectionStatus.disconnected :=
  ⟨rfl, rfl, by decide⟩

/-- C2 amended: for every configuration whose parse fails, connect (on a
non-running manager) returns exactly the parse error and leaves the manager in
status Connecting — never Connected, but also not back to Disconnected; a
missing PrivateKey yields "Missing PrivateKey" and a missing Address yields
"Missing Address". -/
theorem C2_amended_parse_failure :
    (∀ (s : ManagerState) (cfg dev net : String) (ex : Bool)
       (env : TunnelManager.ConnectEnv) (e : String),
       s.isRunning = false → parse_wg_config cfg = .error e →
       TunnelManager.connect s cfg dev net ex env =
         (.error e, { s with status := .connecting })) ∧
    parse_wg_config cfgMissingKey = .error "Missing PrivateKey" ∧
    parse_wg_config cfgMissingAddress = .error "Missing Address" ∧
    ConnectionStatus.connecting ≠ ConnectionStatus.connected ∧
    ConnectionStatus.connecting ≠ ConnectionStatus.disconnected := by
  refine ⟨?_, rfl, rfl, by decide, by decide⟩
  intro s cfg dev net ex env e hrun hparse
  simp [TunnelManager.connect, hrun, hparse]

/-- C2 witness: the amended theorem applied to a fresh manager and scenario
6's configuration text. -/
theorem C2_witness :
    TunnelManager.connect TunnelManager.new cfgMissingKey "device-a" "net-1" false env0 =
      (.error "Missing PrivateKey", { TunnelManager.new with status := .connecting }) :=
  C2_amended_parse_failure.1 TunnelManager.new cfgMissingKey "device-a" "net-1" false env0
    "Missing PrivateKey" rfl rfl

/-- C3: evaluating the control-plane path at the failing input. During a live
session with the single configured peer key32 at endpoint 10.0.0.1:1000, the
WsEvent callback installed by TunnelManager::connect receives
PeerEndpointUpdate for that peer carrying 203.0.113.9:41820 and leaves the
peer map unchanged — the peer's runtime endpoint is still the old address, so
the next outbound still goes there. The update machinery itself works when
invoked: TunnelManager::update_peer_endpoint with the same key and address
does set the endpoint; the connect callback simply never calls it. -/
theorem C3_endpoint_update_dropped :
    connect_ws_callback_effect
        (WsEvent.peerEndpointUpdate "device-b" allZeroKeyB64 "203.0.113.9:41820") peersC3 =
      peersC3 ∧
    (peersC3.map fun q => q.2.endpoint) = [some ⟨⟨10, 0, 0, 1⟩, 1000⟩] ∧
    some (⟨⟨10, 0, 0, 1⟩, 1000⟩ : SockAddr) ≠ some newEndpointC3 ∧
    TunnelManager.manager_update_peer_endpoint true peersC3 allZeroKeyB64 newEndpointC3 =
      .ok [(key32, { endpoint := some newEndpointC3, last_handshake := none,
                     tx_bytes := 0, rx_bytes := 0 })] :=
  ⟨rfl, rfl, by decide, rfl⟩

/-- C4: roaming. When the datagram received from source address src is first
decapsulated into an inner datagram at peer k (every earlier peer's attempt
returned a non-inner outcome), the UDP pump sets k's recorded endpoint to src;
and a subsequent tun_read_loop iteration that selects k (the first peer with a
known endpoint) sends the encapsulated ciphertext to src. -/
theorem C4_roaming {κ α : Type} (decap : κ → List Nat → DecapOutcome)
    (buf : List Nat) (src : α) (now : Nat) (pre post : List (κ × PeerState α))
    (k : κ) (p : PeerState α) (data : List Nat)
    (hpre : ∀ q ∈ pre, isInner (decap q.1 buf) = false)
    (hk : decap k buf = .writeToTunnelV4 data ∨ decap k buf = .writeToTunnelV6 data) :
    (udp_read_step decap buf src now (pre ++ (k, p) :: post)).peers =
      pre.map (nonInnerUpdate decap buf now) ++
        (k, { p with rx_bytes := p.rx_bytes + data.length, endpoint := some src }) :: post ∧
    (∀ (encap : κ → List Nat → EncapOutcome) (packet : List Nat)
       (pre2 post2 : List (κ × PeerState α)) (cipher : List Nat),
       (∀ q ∈ pre2, q.2.endpoint = none) →
       encap k packet = .writeToNetwork cipher →
       ¬ packet.length < 20 →
       (tun_read_body encap packet
           (pre2 ++ (k, { p with rx_bytes := p.rx_bytes + data.length,
                                 endpoint := some src }) :: post2)).sent =
         [(cipher, src)]) := by
  constructor
  · rw [udp_read_step_spec decap buf src now k p post data hk pre hpre]
  · intro encap packet pre2 post2 cipher hpre2 henc hlen
    unfold tun_read_body
    rw [if_neg hlen]
    rw [tun_read_step_spec encap packet k _ post2 src rfl pre2 hpre2, henc]

/-- C4 witness: a single peer, a V4 inner datagram from source 7, then an
outbound ciphertext sent to 7. -/
theorem C4_witness :
    (udp_read_step (fun _ _ => DecapOutcome.writeToTunnelV4 [5, 6]) [0] 7 0
        [(0, examplePeer none)]).peers =
      [(0, { endpoint := some 7, last_handshake := none, tx_bytes := 0, rx_bytes := 2 })] ∧
    (tun_read_body (fun _ _ => EncapOutcome.writeToNetwork [9]) (List.replicate 20 0)
        [(0, { endpoint := some 7, last_handshake := none, tx_bytes := 0, rx_bytes := 2 })]).sent =
      [([9], 7)] := by
  have h := C4_roaming (fun _ _ => DecapOutcome.writeToTunnelV4 [5, 6]) [0] 7 0 [] []
    0 (examplePeer none) [5, 6] (by simp) (Or.inl rfl)
  exact ⟨h.1, h.2 (fun _ _ => EncapOutcome.writeToNetwork [9]) (List.replicate 20 0)
    [] [] [9] (by simp) rfl (by decide)⟩

/-- C5 counterexample: peer 1 answers the datagram with a handshake reply
(WriteToNetwork), which the claim says wins and stops the iteration; the code
continues, and the datagram is also offered to peer 2 (attempted = [1, 2], not
[1]). -/
theorem C5_counterexample :
    (udp_read_step decapReplyThenErr [0] 99 0
        [(1, examplePeer none), (2, examplePeer none)]).attempted = [1, 2] ∧
    (udp_read_step decapReplyThenErr [0] 99 0
        [(1, examplePeer none), (2, examplePeer none)]).attempted ≠ [1] := by
  constructor <;> decide

/-- C5 amended: iteration stops only at the first peer whose decapsulation
yields an inner (IPv4 or IPv6) datagram; peers returning a handshake reply or
handshake completion (or an error) do not stop it — the reply is sent back to
the source, completion stamps last_handshake, and the datagram is offered to
the following peers. Peers after the first inner winner are not attempted. -/
theorem C5_amended_first_inner_wins {κ α : Type} (decap : κ → List Nat → DecapOutcome)
    (buf : List Nat) (src : α) (now : Nat) (pre post : List (κ × PeerState α))
    (k : κ) (p : PeerState α) (data : List Nat)
    (hpre : ∀ q ∈ pre, isInner (decap q.1 buf) = false)
    (hk : decap k buf = .writeToTunnelV4 data ∨ decap k buf = .writeToTunnelV6 data) :
    (udp_read_step decap buf src now (pre ++ (k, p) :: post)).attempted =
      pre.map Prod.fst ++ [k] ∧
    (udp_read_step decap buf src now (pre ++ (k, p) :: post)).net_out =
      replyOut decap buf src pre ∧
    (udp_read_step decap buf src now (pre ++ (k, p) :: post)).peers =
      pre.map (nonInnerUpdate decap buf now) ++
        (k, { p with rx_bytes := p.rx_bytes + data.length, endpoint := some src }) :: post := by
  rw [udp_read_step_spec decap buf src now k p post data hk pre hpre]
  exact ⟨rfl, rfl, rfl⟩

/-- C5 witness: the amended theorem at a concrete list where peer 1 replies
and peer 2 then wins with an inner datagram. -/
theorem C5_witness :
    (udp_read_step
        (fun k _ => if k = 1 then DecapOutcome.writeToNetwork [9]
                    else DecapOutcome.writeToTunnelV4 [5]) [0] 99 0
        [(1, examplePeer none), (2, examplePeer none)]).attempted = [1, 2] :=
  (C5_amended_first_inner_wins
    (fun k _ => if k = 1 then DecapOutcome.writeToNetwork [9]
                else DecapOutcome.writeToTunnelV4 [5]) [0] 99 0
    [(1, examplePeer none)] [] 2 (examplePeer none) [5] (by decide) (Or.inl (by decide))).1

/-- C6 counterexample: a decapsulation outcome that is an inner IPv6 datagram
is not discarded: the bytes are scheduled in write_data, which the pump writes
to the VirtualInterface after releasing the peer-map lock — contradicting the
claim that it is never written to the host. -/
theorem C6_counterexample :
    (udp_read_step decapV6 [0] 99 0 [(1, examplePeer none)]).write_data = some [1, 2, 3] ∧
    (udp_read_step decapV6 [0] 99 0 [(1, examplePeer none)]).write_data ≠ none := by
  constructor <;> decide

/-- C6 amended: an inner IPv6 datagram is handled exactly like an inner IPv4
one: the rx counter and the peer endpoint are updated (as the claim states)
but the datagram is also scheduled and written to the VirtualInterface, not
discarded. -/
theorem C6_amended_v6_written {κ α : Type} (decap : κ → List Nat → DecapOutcome)
    (buf : List Nat) (src : α) (now : Nat) (pre post : List (κ × PeerState α))
    (k : κ) (p : PeerState α) (data : List Nat)
    (hpre : ∀ q ∈ pre, isInner (decap q.1 buf) = false)
    (hk : decap k buf = .writeToTunnelV6 data) :
    (udp_read_step decap buf src now (pre ++ (k, p) :: post)).write_data = some data ∧
    (udp_read_step decap buf src now (pre ++ (k, p) :: post)).peers =
      pre.map (nonInnerUpdate decap buf now) ++
        (k, { p with rx_bytes := p.rx_bytes + data.length, endpoint := some src }) :: post := by
  rw [udp_read_step_spec decap buf src now k p post data (Or.inr hk) pre hpre]
  exact ⟨rfl, rfl⟩

/-- C6 witness: the amended theorem at a single peer whose decapsulation
yields the inner IPv6 datagram [1, 2, 3]. -/
theorem C6_witness :
    (udp_read_step decapV6 [0] 99 0 [(1, examplePeer none)]).write_data = some [1, 2, 3] :=
  (C6_amended_v6_written decapV6 [0] 99 0 [] [] 1 (examplePeer none) [1, 2, 3]
    (by simp) rfl).1

/-- Folding an append-or-skip body over a list is a filterMap. -/
theorem foldl_append_toList {β γ : Type} (f : β → Option γ) (g : List γ → β → List γ)
    (hg : ∀ acc b, g acc b = acc ++ (f b).toList) :
    ∀ (l : List β) (acc : List γ), l.foldl g acc = acc ++ l.filterMap f := by
  intro l
  induction l with
  | nil => intro acc; simp
  | cons b l ih =>
    intro acc
    rw [List.foldl_cons, hg, ih, List.filterMap_cons]
    cases f b <;> simp

/-- The loop body of the AllowedIPs branch appends exactly the token's
allowedIpToken value. -/
theorem allowedIpToken_body (acc : List (Ipv4 × Nat)) (token : List Char) :
    (let t := charTrim token
     if t.any (· = ':') then acc
     else if t.any (· = '/') then
       let parts := charSplit '/' t
       match parseIpv4Addr ⟨parts.headD []⟩ with
       | none => acc
       | some addr => acc ++ [(addr, (parseRustUInt 255 ⟨parts.getD 1 []⟩).getD 32)]
     else
       match parseIpv4Addr ⟨t⟩ with
       | some addr => acc ++ [(addr, 32)]
       | none => acc) = acc ++ (allowedIpToken token).toList := by
  simp only [allowedIpToken]
  split_ifs with h1 h2
  · simp
  · cases hx : parseIpv4Addr ⟨(charSplit '/' (charTrim token)).headD []⟩ <;> simp
  · cases hx : parseIpv4Addr ⟨charTrim token⟩ <;> simp

/-- The AllowedIPs fold equals the per-token filterMap. -/
theorem parseAllowedIPs_filterMap (value : String) :
    parseAllowedIPs value = (charSplit ',' value.data).filterMap allowedIpToken := by
  unfold parseAllowedIPs
  have h := foldl_append_toList allowedIpToken
    (fun acc token =>
      let t := charTrim token
      if t.any (· = ':') then acc
      else if t.any (· = '/') then
        let parts := charSplit '/' t
        match parseIpv4Addr ⟨parts.headD []⟩ with
        | none => acc
        | some addr => acc ++ [(addr, (parseRustUInt 255 ⟨parts.getD 1 []⟩).getD 32)]
      else
        match parseIpv4Addr ⟨t⟩ with
        | some addr => acc ++ [(addr, 32)]
        | none => acc)
    allowedIpToken_body (charSplit ',' value.data) []
  simpa using h

/-- C7 counterexample: the malformed token "10.0.0.1/abc" (prefix not a u8) is
not dropped — it is kept as 10.0.0.1/32 — and the out-of-range prefix /99 is
kept as parsed, so parsing does not keep exactly the well-formed IPv4 CIDR
tokens. -/
theorem C7_counterexample :
    parseAllowedIPs "10.0.0.1/abc" = [(⟨10, 0, 0, 1⟩, 32)] ∧
    parseAllowedIPs "10.0.0.1/abc" ≠ [] ∧
    parseAllowedIPs "10.0.0.1/99" = [(⟨10, 0, 0, 1⟩, 99)] := by
  refine ⟨by decide, by decide, by decide⟩

/-- C7 amended: AllowedIPs parsing never fails the overall parse; it is the
per-token filterMap in which IPv6 tokens (any ':') are dropped, tokens whose
IPv4 address part does not parse are dropped, a bare parsable address is kept
as /32, and a token with '/' whose address parses is always kept — with its
numeric prefix when that parses as u8 (even values above 32), and with the
fallback prefix 32 when it does not. -/
theorem C7_amended_allowed_ips :
    (∀ value : String,
       parseAllowedIPs value = (charSplit ',' value.data).filterMap allowedIpToken) ∧
    (∀ token : List Char, (charTrim token).any (· = ':') = true →
       allowedIpToken token = none) ∧
    (∀ token : List Char, (charTrim token).any (· = ':') = false →
       (charTrim token).any (· = '/') = false →
       parseIpv4Addr ⟨charTrim token⟩ = none → allowedIpToken token = none) ∧
    (∀ token : List Char, (charTrim token).any (· = ':') = false →
       (charTrim token).any (· = '/') = true →
       parseIpv4Addr ⟨(charSplit '/' (charTrim token)).headD []⟩ = none →
       allowedIpToken token = none) ∧
    (∀ (token : List Char) (addr : Ipv4), (charTrim token).any (· = ':') = false →
       (charTrim token).any (· = '/') = false →
       parseIpv4Addr ⟨charTrim token⟩ = some addr →
       allowedIpToken token = some (addr, 32)) ∧
    (∀ (token : List Char) (addr : Ipv4), (charTrim token).any (· = ':') = false →
       (charTrim token).any (· = '/') = true →
       parseIpv4Addr ⟨(charSplit '/' (charTrim token)).headD []⟩ = some addr →
       parseRustUInt 255 ⟨(charSplit '/' (charTrim token)).getD 1 []⟩ = none →
       allowedIpToken token = some (addr, 32)) := by
  refine ⟨parseAllowedIPs_filterMap, ?_, ?_, ?_, ?_, ?_⟩
  · intro token h
    simp [allowedIpToken, h]
  · intro token h1 h2 h3
    simp [allowedIpToken, h1, h2, h3]
  · intro token h1 h2 h3
    simp only [List.headD_eq_head?] at h3
    simp [allowedIpToken, h1, h2, h3]
  · intro token addr h1 h2 h3
    simp [allowedIpToken, h1, h2, h3]
  · intro token addr h1 h2 h3 h4
    simp only [List.headD_eq_head?] at h3
    simp at h4
    simp [allowedIpToken, h1, h2, h3, h4]

/-- C7 witness: the amended theorem instantiated on concrete tokens — an IPv6
CIDR is dropped, a bad prefix is kept as /32, and a whole value splits as the
filterMap predicts. -/
theorem C7_witness :
    allowedIpToken "fd00::1/64".data = none ∧
    allowedIpToken "10.0.0.1/abc".data = some (⟨10, 0, 0, 1⟩, 32) ∧
    parseAllowedIPs "10.0.0.0/24, fd00::1/64" =
      (charSplit ',' "10.0.0.0/24, fd00::1/64".data).filterMap allowedIpToken :=
  ⟨C7_amended_allowed_ips.2.1 "fd00::1/64".data (by decide),
   C7_amended_allowed_ips.2.2.2.2.2 "10.0.0.1/abc".data ⟨10, 0, 0, 1⟩
     (by decide) (by decide) (by decide) (by decide),
   C7_amended_allowed_ips.1 "10.0.0.0/24, fd00::1/64"⟩

/-- C8 counterexample: a 32-byte inner packet whose encapsulation produces a
60-byte transport ciphertext bumps tx_bytes by 60 (the ciphertext length), not
by 32 (the pre-encap inner length) as the claim states. -/
theorem C8_counterexample :
    ((tun_read_body encapCipher60 (List.replicate 32 7)
        [(1, examplePeer (some 4))]).peers.map fun q => q.2.tx_bytes) = [60] ∧
    ((tun_read_body encapCipher60 (List.replicate 32 7)
        [(1, examplePeer (some 4))]).peers.map fun q => q.2.tx_bytes) ≠ [32] := by
  constructor <;> decide

/-- C8 amended: rx_bytes counts post-decap inner payload bytes, as claimed;
tx_bytes counts the bytes of the encapsulated transport message (the
ciphertext emitted by WriteToNetwork), not the pre-encap inner payload. -/
theorem C8_amended_counters {κ α : Type} :
    (∀ (decap : κ → List Nat → DecapOutcome) (buf : List Nat) (src : α) (now : Nat)
       (pre post : List (κ × PeerState α)) (k : κ) (p : PeerState α) (data : List Nat),
       (∀ q ∈ pre, isInner (decap q.1 buf) = false) →
       (decap k buf = .writeToTunnelV4 data ∨ decap k buf = .writeToTunnelV6 data) →
       (udp_read_step decap buf src now (pre ++ (k, p) :: post)).peers =
         pre.map (nonInnerUpdate decap buf now) ++
           (k, { p with rx_bytes := p.rx_bytes + data.length,
                        endpoint := some src }) :: post) ∧
    (∀ (encap : κ → List Nat → EncapOutcome) (packet : List Nat)
       (pre post : List (κ × PeerState α)) (k : κ) (p : PeerState α) (ep : α)
       (cipher : List Nat),
       (∀ q ∈ pre, q.2.endpoint = none) →
       p.endpoint = some ep →
       encap k packet = .writeToNetwork cipher →
       ¬ packet.length < 20 →
       tun_read_body encap packet (pre ++ (k, p) :: post) =
         ⟨pre ++ (k, { p with tx_bytes := p.tx_bytes + cipher.length }) :: post,
          [(cipher, ep)]⟩) := by
  constructor
  · intro decap buf src now pre post k p data hpre hk
    rw [udp_read_step_spec decap buf src now k p post data hk pre hpre]
  · intro encap packet pre post k p ep cipher hpre hep henc hlen
    unfold tun_read_body
    rw [if_neg hlen]
    rw [tun_read_step_spec encap packet k p post ep hep pre hpre, henc]

/-- C8 witness: the amended theorem at concrete inputs — the rx side counts
the 2-byte inner datagram, the tx side counts the 60-byte ciphertext. -/
theorem C8_witness :
    (udp_read_step (fun _ _ => DecapOutcome.writeToTunnelV4 [5, 6]) [0] 7 0
        [(0, examplePeer none)]).peers =
      [(0, { endpoint := some 7, last_handshake := none, tx_bytes := 0, rx_bytes := 2 })] ∧
    tun_read_body encapCipher60 (List.replicate 32 7) [(1, examplePeer (some 4))] =
      ⟨[(1, { endpoint := some 4, last_handshake := none, tx_bytes := 60, rx_bytes := 0 })],
       [(List.replicate 60 1, 4)]⟩ :=
  ⟨C8_amended_counters.1 (fun _ _ => DecapOutcome.writeToTunnelV4 [5, 6]) [0] 7 0 [] []
     0 (examplePeer none) [5, 6] (by simp) (Or.inl rfl),
   C8_amended_counters.2 encapCipher60 (List.replicate 32 7) [] [] 1
     (examplePeer (some 4)) 4 (List.replicate 60 1) (by simp) rfl (by decide) (by decide)⟩

/-- C9 counterexample: with exclude IP 198.51.100.7, original gateway
192.168.1.1 and tunnel gateway 10.100.0.1, installation issues
[bypass, 0.0.0.0/1, 128.0.0.0/1] but removal issues
[0.0.0.0/1, 128.0.0.0/1, bypass] — not the reverse of installation, because
the two split routes are removed in installation order. -/
theorem C9_counterexample :
    (restore_default_gateway
        (set_default_gateway ⟨none, none⟩ "10.100.0.1" (some "198.51.100.7")
          (some "192.168.1.1")).1).2 =
      [RouteCmd.delNet "0.0.0.0/1", RouteCmd.delNet "128.0.0.0/1",
       RouteCmd.delHost "198.51.100.7"] ∧
    (((set_default_gateway ⟨none, none⟩ "10.100.0.1" (some "198.51.100.7")
        (some "192.168.1.1")).2).map routeRemovalOf).reverse =
      [RouteCmd.delNet "128.0.0.0/1", RouteCmd.delNet "0.0.0.0/1",
       RouteCmd.delHost "198.51.100.7"] ∧
    (restore_default_gateway
        (set_default_gateway ⟨none, none⟩ "10.100.0.1" (some "198.51.100.7")
          (some "192.168.1.1")).1).2 ≠
      (((set_default_gateway ⟨none, none⟩ "10.100.0.1" (some "198.51.100.7")
          (some "192.168.1.1")).2).map routeRemovalOf).reverse := by
  refine ⟨rfl, rfl, by decide⟩

/-- C9 amended: in full-tunnel mode with an exclude IP and a found original
gateway, the bypass host route is installed strictly before the two
split-default routes; on removal both split routes are removed before the
bypass (the bypass is removed last), but the two split routes are removed in
installation order (0.0.0.0/1 then 128.0.0.0/1), not reversed. -/
theorem C9_amended_route_order (E G g : String) (st : HelperGwState) :
    (set_default_gateway st g (some E) (some G)).2 =
      [RouteCmd.addHost E G, RouteCmd.addNet "0.0.0.0/1" g,
       RouteCmd.addNet "128.0.0.0/1" g] ∧
    (restore_default_gateway (set_default_gateway st g (some E) (some G)).1).2 =
      [RouteCmd.delNet "0.0.0.0/1", RouteCmd.delNet "128.0.0.0/1",
       RouteCmd.delHost E] ∧
    (restore_default_gateway (set_default_gateway st g (some E) (some G)).1).1.excludedIp =
      none :=
  ⟨rfl, rfl, rfl⟩
